import Mathlib

/-!
Verification development for the mixed-reality solar-system application
(`src/app.ts`).  The definitions below are a shallow embedding of the
program's data model and operations: the per-body scene construction
(`createBody`), the interval-driven label-bob loop (`animationPlayPause`
and its 100ms callback `labelBobStep`), the gear-oscillation routine
(`gearAnimation` / `gearStep`), the hover/click handlers
(`boxAnimationEnter`, `boxAnimationExit`, `childModelDisplay`), the
find-or-load asset cache, and the timer bookkeeping.  Numeric fields the
program manipulates with plain arithmetic are embedded as rationals;
values produced by `Math.pow(_, 1/3)` and the degree-to-radian
conversion are embedded as real numbers.  The host runtime's event loop
is embedded as an explicit event list applied to an explicit state.
-/

namespace SolarSystem

/-! ### Pure animation-loop step functions

`labelBobStep` is the body of the `setInterval` callback installed by
`animationPlayPause` (app.ts lines 279-297): it reads the shared phase
counter `labelLoopInc` and the label's local y position and produces
their updated values.  `gearStep` is the analogous body of the callback
inside `gearAnimation` (app.ts lines 341-359). -/

def labelBobStep (inc : Int) (y : ℚ) : Int × ℚ :=
  if inc < 5 then
    let y1 := y + 1/100
    let i1 := inc + 1
    (if i1 = 5 then 10 else i1, y1)
  else
    let y1 := y - 1/100
    let i1 := inc - 1
    (if i1 = 5 then 0 else i1, y1)

def gearStep (inc : Int) (x : ℚ) : Int × ℚ :=
  if inc < 10 then
    let x1 := x + 1/100
    let i1 := inc + 1
    (if i1 = 10 then 20 else i1, x1)
  else
    let x1 := x - 1/100
    let i1 := inc - 1
    (if i1 = 10 then 0 else i1, x1)

/-- Iterating the label-bob callback `n` times on a (counter, label-y) pair,
as a single running loop does. -/
def labelBobIter : Nat → Int × ℚ → Int × ℚ
  | 0, s => s
  | n + 1, s => labelBobIter n (labelBobStep s.1 s.2)

/-! ### Data model -/

/-- One record of `database.json` (the `DatabaseRecord` interface,
app.ts lines 16-37). -/
structure DatabaseRecord where
  name : String
  fileFormat : String
  parent : String
  diameter : ℚ
  modelpositionxAxis : ℚ
  modelpositionyAxis : ℚ
  modelpositionzAxis : ℚ
  modelrotationxAxis : ℚ
  modelrotationyAxis : ℚ
  modelrotationzAxis : ℚ
  labelpositionxAxis : ℚ
  labelpositionyAxis : ℚ
  labelpositionzAxis : ℚ
  appearance : Bool
  distance : ℚ
  day : ℚ
  year : ℚ
  inclination : ℚ
  obliquity : ℚ
  retrograde : Bool
deriving DecidableEq

/-- The body database: an ordered association list, mirroring a JS object
whose keys are iterated in insertion order. -/
abbrev Database := List (String × DatabaseRecord)

/-- Association-list lookup (first matching key), mirroring JS property
access `database[bodyName]` / `this.celestialBodies[name]`. -/
def lookupRec {α : Type} : List (String × α) → String → Option α
  | [], _ => none
  | (k, v) :: rest, key => if k = key then some v else lookupRec rest key

/-- A rotation value as the program sets it: either untouched, or
`Quaternion.RotationAxis(Vector3.Forward(), radians)`, or a quaternion
literal built from three raw record components. -/
inductive RotVal where
  | unset
  | forwardAxis (radians : ℝ)
  | rawXYZ (x y z : ℚ)

structure Vec3 where
  x : ℚ
  y : ℚ
  z : ℚ
deriving DecidableEq

/-- A scene node (`MRE.Actor`) with the fields the program sets. -/
structure Actor where
  id : Nat
  name : String
  parentId : Option Nat
  localPosition : Vec3
  appRotation : RotVal
  localRotation : RotVal
  localScale : Option (ℝ × ℝ × ℝ)
  colliderSphereRadius : Option ℚ
  appearanceEnabled : Bool
  textContents : Option String

def mkActor (id : Nat) (name : String) (parentId : Option Nat) : Actor :=
  { id := id, name := name, parentId := parentId,
    localPosition := ⟨0, 0, 0⟩, appRotation := RotVal.unset,
    localRotation := RotVal.unset, localScale := none,
    colliderSphereRadius := none, appearanceEnabled := true,
    textContents := none }

/-- The six scene nodes registered for one body (the `CelestialBody`
interface, app.ts lines 39-46). -/
structure CelestialBody where
  inclination : Actor
  position : Actor
  obliquity0 : Actor
  obliquity1 : Actor
  model : Actor
  label : Actor

inductive LoopKind where
  | labelBob
  | gearOsc
deriving DecidableEq

/-- A running `setInterval` timer (100ms period). -/
structure IntervalTimer where
  id : Nat
  kind : LoopKind
  body : String
deriving DecidableEq

/-- A pending `setTimeout` timer; the only scheduled action in the program
is the popup shrink scheduled by `boxAnimationExit` with a 3000ms delay. -/
structure TimeoutTimer where
  id : Nat
  delayMs : Nat
deriving DecidableEq

inductive Easing where
  | linear
  | easeOutSine
deriving DecidableEq

/-- The destination of an `MRE.Animation.AnimateTo` call as the program
issues them: a local y position target, or a uniform local scale target. -/
inductive AnimDest where
  | positionY (y : ℚ)
  | scaleUniform (s : ℝ)

/-- One fire-and-forget `AnimateTo` command issued to the host. -/
structure AnimCmd where
  targetActorId : Nat
  dest : AnimDest
  duration : ℚ
  easing : Easing

/-- The whole mutable state of the `SolarSystem` class instance plus the
host-side resources it owns (running timers, issued loads and animation
commands, log lines). -/
structure AppState where
  celestialBodies : List (String × CelestialBody)
  handlers : List String
  labelLoopInc : Int
  gearLoopInc : Int
  animationLoopIterval : Option Nat
  childBoxTimeout : Option Nat
  intervals : List IntervalTimer
  timeouts : List TimeoutTimer
  nextTimerId : Nat
  nextActorId : Nat
  assetsUris : List String
  loads : List String
  anims : List AnimCmd
  boundAnims : List Nat
  log : List String
  rejections : List String
  threwCount : Nat

def initState : AppState :=
  { celestialBodies := [], handlers := [], labelLoopInc := 0,
    gearLoopInc := 0, animationLoopIterval := none, childBoxTimeout := none,
    intervals := [], timeouts := [], nextTimerId := 0, nextActorId := 0,
    assetsUris := [], loads := [], anims := [], boundAnims := [],
    log := [], rejections := [], threwCount := 0 }

/-! ### Numeric helpers from the source -/

/-- `Math.pow(diameter, 1/3) / 25` (app.ts line 121). -/
noncomputable def scaleMultiplier (d : ℚ) : ℝ :=
  (d : ℝ) ^ ((1 : ℝ) / 3) / 25

/-- One component of `scaleValue` = `scaleMultiplier / 2`
(app.ts line 124). -/
noncomputable def scaleHalf (d : ℚ) : ℝ :=
  scaleMultiplier d / 2

/-- `degrees * MRE.DegreesToRadians`. -/
noncomputable def degToRad (q : ℚ) : ℝ :=
  (q : ℝ) * Real.pi / 180

/-! ### State helpers -/

def lookupBody (st : AppState) (k : String) : Option CelestialBody :=
  lookupRec st.celestialBodies k

/-- Insert-or-overwrite into the body registry, mirroring
`this.celestialBodies[bodyName] = {...}`. -/
def setBody (m : List (String × CelestialBody)) (k : String)
    (v : CelestialBody) : List (String × CelestialBody) :=
  if m.any (fun p => p.1 = k) then
    m.map (fun p => if p.1 = k then (k, v) else p)
  else
    m ++ [(k, v)]

/-- In-place mutation of one registry entry (reference semantics of the
closure-captured `celestialBody`). -/
def updateBodyEntry (st : AppState) (k : String)
    (v : CelestialBody) : AppState :=
  { st with celestialBodies :=
      st.celestialBodies.map (fun p => if p.1 = k then (p.1, v) else p) }

def pushAnim (st : AppState) (c : AnimCmd) : AppState :=
  { st with anims := st.anims ++ [c] }

/-- `clearInterval(handle)`: removes the matching running interval;
a no-op on an undefined or stale handle. -/
def clearIntervalH (st : AppState) (h : Option Nat) : AppState :=
  match h with
  | none => st
  | some i =>
      { st with intervals := st.intervals.filter (fun t => t.id ≠ i) }

/-- `clearTimeout(handle)` with the same no-op semantics. -/
def clearTimeoutH (st : AppState) (h : Option Nat) : AppState :=
  match h with
  | none => st
  | some i =>
      { st with timeouts := st.timeouts.filter (fun t => t.id ≠ i) }

/-! ### animationPlayPause (app.ts lines 277-298)

Starts a fresh 100ms interval whose callback is `labelBobStep` applied to
the shared counter and the captured body's label, and overwrites the
shared handle field `animationLoopIterval` without clearing the previous
interval. -/

def animationPlayPause (st : AppState) (bodyName : String) : AppState :=
  let tid := st.nextTimerId
  { st with
      intervals := st.intervals ++ [⟨tid, LoopKind.labelBob, bodyName⟩],
      nextTimerId := tid + 1,
      animationLoopIterval := some tid }

/-! ### gearAnimation (app.ts lines 339-360)

Starts a 100ms interval whose callback is `gearStep` on the shared
`gearLoopInc` and the captured body's model rotation x component.  Note
the routine stores no handle at all.  (This routine has no call site in
the source.) -/

def gearAnimation (st : AppState) (bodyName : String) : AppState :=
  let tid := st.nextTimerId
  { st with
      intervals := st.intervals ++ [⟨tid, LoopKind.gearOsc, bodyName⟩],
      nextTimerId := tid + 1 }

/-! ### Interval callbacks and the 100ms tick -/

def setLabelY (cb : CelestialBody) (y : ℚ) : CelestialBody :=
  { cb with label :=
      { cb.label with localPosition := { cb.label.localPosition with y := y } } }

/-- Reading the `x` component of a rotation value (quaternion field
access `rotation.x`). -/
def rotGetX (r : RotVal) : ℚ :=
  match r with
  | RotVal.rawXYZ x _ _ => x
  | _ => 0

/-- Writing the `x` component of a rotation value. -/
def rotSetX (r : RotVal) (x : ℚ) : RotVal :=
  match r with
  | RotVal.rawXYZ _ y z => RotVal.rawXYZ x y z
  | r => r

def setModelRotX (cb : CelestialBody) (x : ℚ) : CelestialBody :=
  { cb with model :=
      { cb.model with localRotation := rotSetX cb.model.localRotation x } }

/-- Run one interval timer's callback.  A label-bob callback whose
captured `celestialBody` is undefined throws (`celestialBody.label` on
`undefined`). -/
def runIntervalCallback (st : AppState) (t : IntervalTimer) : AppState :=
  match t.kind with
  | LoopKind.labelBob =>
      match lookupBody st t.body with
      | none => { st with threwCount := st.threwCount + 1 }
      | some cb =>
          let p := labelBobStep st.labelLoopInc cb.label.localPosition.y
          let st1 := updateBodyEntry st t.body (setLabelY cb p.2)
          { st1 with labelLoopInc := p.1 }
  | LoopKind.gearOsc =>
      match lookupBody st t.body with
      | none => { st with threwCount := st.threwCount + 1 }
      | some cb =>
          let p := gearStep st.gearLoopInc (rotGetX cb.model.localRotation)
          let st1 := updateBodyEntry st t.body (setModelRotX cb p.2)
          { st1 with gearLoopInc := p.1 }

/-- One 100ms period of the host event loop: every running interval's
callback fires once, in creation order (Node fires equal-period intervals
in registration order). -/
def tickAll (st : AppState) : AppState :=
  st.intervals.foldl runIntervalCallback st

/-! ### createBody (app.ts lines 117-275)

The `try` block contains the six node creations and the asset
find-or-load; each creation step may throw.  A failure oracle assigns to
a body name the index of the step that throws (0-4: the five plain node
creations in order, 5: the asset load, 6: the model creation from the
prefab) together with the error detail.  The `catch` clause logs
`createBody failed <name>, <error>`. -/

abbrev Oracle := String → Option (Nat × String)

def noFail : Oracle := fun _ => none

def failsAt (oracle : Oracle) (b : String) (k : Nat) : Option String :=
  match oracle b with
  | some (j, msg) => if j = k then some msg else none
  | none => none

/-- The contents of `createBody`'s `try` block.  Returns the state after
the steps that executed, together with the thrown error detail if a step
threw.  Actor ids are drawn from `nextActorId` in creation order
(inclination, position, label, obliquity0, obliquity1, model);
`model.appearance.enabled = facts.appearance` and `label.enableText` are
folded into the final actor values they produce.  An exit at step `k`
leaves the `k` already created actors reflected in `nextActorId`, and an
exit after the load keeps the issued load. -/
noncomputable def createBodyTry (oracle : Oracle) (st0 : AppState)
    (bodyName : String) (facts : DatabaseRecord) : AppState × Option String :=
  let uri := "assets/" ++ bodyName ++ "." ++ facts.fileFormat
  let aid := st0.nextActorId
  let inclination : Actor :=
    { mkActor aid (bodyName ++ "-inclination") none with
        appRotation := RotVal.forwardAxis (degToRad facts.inclination) }
  let position : Actor :=
    { mkActor (aid + 1) (bodyName ++ "-position") (some inclination.id) with
        localPosition := ⟨facts.modelpositionxAxis, facts.modelpositionyAxis,
          facts.modelpositionzAxis⟩ }
  let label : Actor :=
    { mkActor (aid + 2) (bodyName ++ "-label") (some position.id) with
        localPosition := ⟨facts.labelpositionxAxis, facts.labelpositionyAxis,
          facts.labelpositionzAxis⟩ }
  let obliquity0 : Actor :=
    mkActor (aid + 3) (bodyName ++ "-obliquity0") (some position.id)
  let obliquity1 : Actor :=
    { mkActor (aid + 4) (bodyName ++ "-obliquity1") (some obliquity0.id) with
        localRotation := RotVal.forwardAxis (degToRad facts.obliquity) }
  let model : Actor :=
    { mkActor (aid + 5) (bodyName ++ "-body") (some obliquity1.id) with
        localScale := some (scaleHalf facts.diameter, scaleHalf facts.diameter,
          scaleHalf facts.diameter),
        localRotation := RotVal.rawXYZ facts.modelrotationxAxis
          facts.modelrotationyAxis facts.modelrotationzAxis,
        colliderSphereRadius := some 0,
        appearanceEnabled := facts.appearance }
  -- find-or-load: reuse a registered prefab whose source uri matches,
  -- otherwise issue a load and register the result (app.ts lines 187-191)
  let found := st0.assetsUris.contains uri
  match failsAt oracle bodyName 0 with
  | some e => (st0, some e)
  | none =>
  match failsAt oracle bodyName 1 with
  | some e => ({ st0 with nextActorId := aid + 1 }, some e)
  | none =>
  match failsAt oracle bodyName 2 with
  | some e => ({ st0 with nextActorId := aid + 2 }, some e)
  | none =>
  match failsAt oracle bodyName 3 with
  | some e => ({ st0 with nextActorId := aid + 3 }, some e)
  | none =>
  match failsAt oracle bodyName 4 with
  | some e => ({ st0 with nextActorId := aid + 4 }, some e)
  | none =>
  match (if found then none else failsAt oracle bodyName 5) with
  | some e =>
      ({ st0 with
          nextActorId := aid + 5,
          loads := st0.loads ++ [uri] }, some e)
  | none =>
  match failsAt oracle bodyName 6 with
  | some e =>
      ({ st0 with
          nextActorId := aid + 5,
          loads := if found then st0.loads else st0.loads ++ [uri],
          assetsUris := if found then st0.assetsUris
            else st0.assetsUris ++ [uri] }, some e)
  | none =>
  let labelText : Actor := { label with textContents := some facts.name }
  let cb : CelestialBody :=
    { inclination := inclination, position := position,
      obliquity0 := obliquity0, obliquity1 := obliquity1,
      model := model, label := labelText }
  let st1 : AppState :=
    { st0 with
        nextActorId := aid + 6,
        loads := if found then st0.loads else st0.loads ++ [uri],
        assetsUris := if found then st0.assetsUris else st0.assetsUris ++ [uri],
        celestialBodies := setBody st0.celestialBodies bodyName cb }
  -- app.ts lines 238-251: bodies with a non-empty display name start the
  -- bob loop and get the click / hover handlers wired
  let st2 : AppState :=
    if facts.name ≠ "" then
      let stp := animationPlayPause st1 bodyName
      { stp with handlers := stp.handlers ++ [bodyName] }
    else st1
  -- app.ts lines 254-269: the gear body replaces the asset container with
  -- a fresh one and binds a looping keyframe animation to its model
  let st3 : AppState :=
    if bodyName = "only_gear" then
      { st2 with assetsUris := [], boundAnims := st2.boundAnims ++ [model.id] }
    else st2
  (st3, none)

/-- `createBody`: looks the record up (outside the `try` block: an unknown
name rejects the async call instead of being caught), runs the `try`
block, and on a thrown error logs it with the body name and detail.  No
error escapes to the caller. -/
noncomputable def createBody (db : Database) (oracle : Oracle)
    (st : AppState) (bodyName : String) : AppState :=
  match lookupRec db bodyName with
  | none => { st with rejections := st.rejections ++ [bodyName] }
  | some facts =>
      let r := createBodyTry oracle st bodyName facts
      match r.2 with
      | none => r.1
      | some e =>
          { r.1 with log := r.1.log ++
              ["createBody failed " ++ bodyName ++ ", " ++ e] }

noncomputable def buildBodies (db : Database) (oracle : Oracle)
    (st : AppState) (names : List String) : AppState :=
  names.foldl (createBody db oracle) st

/-- `createSolarSystem` (app.ts lines 108-113): iterate the database keys
in insertion order and build each body. -/
noncomputable def createSolarSystem (db : Database) (oracle : Oracle) : AppState :=
  buildBodies db oracle initState (db.map Prod.fst)

/-! ### Hover and click handlers (app.ts lines 299-373) -/

/-- `boxAnimationEnter`: clears the stored interval handle, then animates
the `box_model_cloud` and `only_gear` position nodes to fixed y targets.
Dereferencing a missing registry entry throws; an anim already issued
before the throw stays issued.  Returns the state and whether the handler
threw. -/
def boxAnimationEnter (st : AppState) : AppState × Bool :=
  let st := clearIntervalH st st.animationLoopIterval
  match lookupBody st "box_model_cloud" with
  | none => ({ st with threwCount := st.threwCount + 1 }, true)
  | some box =>
    match lookupBody st "only_gear" with
    | none =>
        let st := pushAnim st
          ⟨box.position.id, AnimDest.positionY (1/10), 1, Easing.easeOutSine⟩
        ({ st with threwCount := st.threwCount + 1 }, true)
    | some gear =>
        let st := pushAnim st
          ⟨box.position.id, AnimDest.positionY (1/10), 1, Easing.easeOutSine⟩
        let st := pushAnim st
          ⟨gear.position.id, AnimDest.positionY (35/100), 1, Easing.easeOutSine⟩
        (st, false)

/-- `boxAnimationExit`: animates the two named nodes back toward rest,
then schedules the popup shrink after 3000ms, storing the timeout handle
in `childBoxTimeout` (overwriting any previous handle without clearing
it). -/
def boxAnimationExit (st : AppState) : AppState × Bool :=
  match lookupBody st "box_model_cloud" with
  | none => ({ st with threwCount := st.threwCount + 1 }, true)
  | some box =>
    match lookupBody st "only_gear" with
    | none =>
        let st := pushAnim st
          ⟨box.position.id, AnimDest.positionY 0, 1, Easing.easeOutSine⟩
        ({ st with threwCount := st.threwCount + 1 }, true)
    | some gear =>
        let st := pushAnim st
          ⟨box.position.id, AnimDest.positionY 0, 1, Easing.easeOutSine⟩
        let st := pushAnim st
          ⟨gear.position.id, AnimDest.positionY (25/100), 1, Easing.easeOutSine⟩
        let tid := st.nextTimerId
        ({ st with timeouts := st.timeouts ++ [⟨tid, 3000⟩],
                   nextTimerId := tid + 1,
                   childBoxTimeout := some tid }, false)

/-- The body of the shrink `setTimeout` callback: dereferences
`popup_model` (throwing if absent at fire time) and animates its model
scale to the value computed from diameter 0. -/
noncomputable def runShrinkCallback (st : AppState) : AppState :=
  match lookupBody st "popup_model" with
  | none => { st with threwCount := st.threwCount + 1 }
  | some popup =>
      pushAnim st
        ⟨popup.model.id, AnimDest.scaleUniform (scaleHalf 0), 1, Easing.easeOutSine⟩

/-- Fire the oldest pending timeout (all scheduled timeouts share the
3000ms delay, so they fire in scheduling order). -/
noncomputable def fireOldestTimeout (st : AppState) : AppState :=
  match st.timeouts with
  | [] => st
  | _ :: rest => runShrinkCallback { st with timeouts := rest }

/-- `childModelDisplay` (the click handler): clears the stored shrink
timeout handle, makes the `popup_model` model visible and animates its
scale to the value computed from diameter 1000. -/
noncomputable def childModelDisplay (st : AppState) : AppState × Bool :=
  let st := clearTimeoutH st st.childBoxTimeout
  match lookupBody st "popup_model" with
  | none => ({ st with threwCount := st.threwCount + 1 }, true)
  | some popup =>
      let popup1 : CelestialBody :=
        { popup with model := { popup.model with appearanceEnabled := true } }
      let st := updateBodyEntry st "popup_model" popup1
      let st := pushAnim st
        ⟨popup1.model.id, AnimDest.scaleUniform (scaleHalf 1000), 1, Easing.easeOutSine⟩
      (st, false)

/-! ### Event semantics

Handlers are only attached to bodies with a non-empty display name; an
event on a body without handlers is a no-op.  The hover-exit handler
(app.ts lines 247-250) first restarts the bob loop for the hovered body
and then runs `boxAnimationExit`. -/

inductive Ev where
  | tick
  | hoverEnter (body : String)
  | hoverExit (body : String)
  | click (body : String)
  | fireTimeout

noncomputable def applyEvent (st : AppState) (e : Ev) : AppState :=
  match e with
  | Ev.tick => tickAll st
  | Ev.hoverEnter b => if b ∈ st.handlers then (boxAnimationEnter st).1 else st
  | Ev.hoverExit b =>
      if b ∈ st.handlers then (boxAnimationExit (animationPlayPause st b)).1 else st
  | Ev.click b => if b ∈ st.handlers then (childModelDisplay st).1 else st
  | Ev.fireTimeout => fireOldestTimeout st

/-- A whole run: construct the solar system from the database, then apply
an arbitrary sequence of host events. -/
noncomputable def runEvents (db : Database) (oracle : Oracle)
    (evs : List Ev) : AppState :=
  evs.foldl applyEvent (createSolarSystem db oracle)

/-! ### Observation helpers -/

def bobTimersFor (st : AppState) (b : String) : List IntervalTimer :=
  st.intervals.filter (fun t => t.kind = LoopKind.labelBob ∧ t.body = b)

def labelYOf (st : AppState) (b : String) : Option ℚ :=
  (lookupBody st b).map (fun cb => cb.label.localPosition.y)

def isRegistered (st : AppState) (b : String) : Bool :=
  (lookupBody st b).isSome

/-- A database record with every numeric field zeroed except the
diameter; used to build concrete test databases. -/
def sampleRec (displayName : String) (diameter : ℚ) : DatabaseRecord :=
  { name := displayName, fileFormat := "glb", parent := "",
    diameter := diameter,
    modelpositionxAxis := 0, modelpositionyAxis := 0, modelpositionzAxis := 0,
    modelrotationxAxis := 0, modelrotationyAxis := 0, modelrotationzAxis := 0,
    labelpositionxAxis := 0, labelpositionyAxis := 0, labelpositionzAxis := 0,
    appearance := true, distance := 0, day := 0, year := 0,
    inclination := 0, obliquity := 0, retrograde := false }

/-- Number of running label-bob intervals for a body. -/
def bobCount (st : AppState) (b : String) : Nat :=
  (bobTimersFor st b).length

/-- Concrete database: the two fixed handler targets (with empty display
names, so they start no loops) plus two interactive bodies. -/
def dbTwoInteractive : Database :=
  [("box_model_cloud", sampleRec "" 100),
   ("only_gear", sampleRec "" 100),
   ("A", sampleRec "A" 100),
   ("B", sampleRec "B" 100)]

/-- Concrete database lacking `popup_model`. -/
def dbNoPopup : Database :=
  [("box_model_cloud", sampleRec "" 100),
   ("only_gear", sampleRec "" 100),
   ("A", sampleRec "A" 100)]

/-- Concrete database with all three fixed handler targets and one
interactive body. -/
def dbWithPopup : Database :=
  [("box_model_cloud", sampleRec "" 100),
   ("only_gear", sampleRec "" 100),
   ("popup_model", sampleRec "" 1000),
   ("A", sampleRec "A" 100)]

/-- Concrete database for the asset-reuse scenario. -/
def dbAssetPair : Database :=
  [("A", sampleRec "A" 100), ("only_gear", sampleRec "" 100)]

/-- Concrete database with a zero-diameter body. -/
def dbZeroDiam : Database :=
  [("Z", sampleRec "Z" 0)]

/-- Concrete database for the error-isolation scenario. -/
def dbFailPair : Database :=
  [("A", sampleRec "A" 100), ("B", sampleRec "B" 100)]

/-- Failure oracle that makes body `A`'s third node creation throw. -/
def failOracleA : Oracle :=
  fun n => if n = "A" then some (2, "boom") else none

/-- A small concrete celestial-body node set for handler-level tests. -/
def sampleCB (base : Nat) : CelestialBody :=
  { inclination := mkActor base "i" none,
    position := mkActor (base + 1) "p" (some base),
    obliquity0 := mkActor (base + 3) "o0" (some (base + 1)),
    obliquity1 := mkActor (base + 4) "o1" (some (base + 3)),
    model := mkActor (base + 5) "m" (some (base + 4)),
    label := mkActor (base + 2) "l" (some (base + 1)) }

/-- Concrete state for the click/shrink scenario: handler wired for `A`,
a popup entry registered, and two shrink timeouts pending with only the
second one's handle stored. -/
def c7State : AppState :=
  { initState with
      handlers := ["A"],
      celestialBodies := [("popup_model", sampleCB 0)],
      timeouts := [⟨0, 3000⟩, ⟨1, 3000⟩],
      childBoxTimeout := some 1,
      nextTimerId := 2 }

/-- Concrete state for the handler-target scenario: the three fixed
registry entries present plus one interactive body `A`. -/
def c10State : AppState :=
  { initState with
      handlers := ["A"],
      celestialBodies :=
        [("box_model_cloud", sampleCB 0), ("only_gear", sampleCB 6),
         ("popup_model", sampleCB 12), ("A", sampleCB 18)] }

/-- The invariant tied by a single running bob loop between the phase
counter and the label's departure from its rest offset. -/
def bobInv (rest : ℚ) (s : Int × ℚ) : Prop :=
  (0 ≤ s.1 ∧ s.1 ≤ 4 ∧ s.2 = rest + (s.1 : ℚ) / 100) ∨
  (6 ≤ s.1 ∧ s.1 ≤ 10 ∧ s.2 = rest + ((s.1 : ℚ) - 5) / 100)

/-- The six actors a successful `createBody` run registers, with actor
ids drawn from `aid`, `aid+1`, ..., `aid+5` in creation order. -/
noncomputable def builtBody (aid : Nat) (bodyName : String)
    (facts : DatabaseRecord) : CelestialBody :=
  { inclination :=
      { mkActor aid (bodyName ++ "-inclination") none with
          appRotation := RotVal.forwardAxis (degToRad facts.inclination) },
    position :=
      { mkActor (aid + 1) (bodyName ++ "-position") (some aid) with
          localPosition := ⟨facts.modelpositionxAxis, facts.modelpositionyAxis,
            facts.modelpositionzAxis⟩ },
    obliquity0 := mkActor (aid + 3) (bodyName ++ "-obliquity0") (some (aid + 1)),
    obliquity1 :=
      { mkActor (aid + 4) (bodyName ++ "-obliquity1") (some (aid + 3)) with
          localRotation := RotVal.forwardAxis (degToRad facts.obliquity) },
    model :=
      { mkActor (aid + 5) (bodyName ++ "-body") (some (aid + 4)) with
          localScale := some (scaleHalf facts.diameter, scaleHalf facts.diameter,
            scaleHalf facts.diameter),
          localRotation := RotVal.rawXYZ facts.modelrotationxAxis
            facts.modelrotationyAxis facts.modelrotationzAxis,
          colliderSphereRadius := some 0,
          appearanceEnabled := facts.appearance },
    label :=
      { mkActor (aid + 2) (bodyName ++ "-label") (some (aid + 1)) with
          localPosition := ⟨facts.labelpositionxAxis, facts.labelpositionyAxis,
            facts.labelpositionzAxis⟩,
          textContents := some facts.name } }

/-- The state a fault-free `createBody` run produces; an exact mirror of
the success path of `createBodyTry` (proved equal to it in
`createBody_success_eq`). -/
noncomputable def createBodySuccessState (st0 : AppState) (bodyName : String)
    (facts : DatabaseRecord) : AppState :=
  let uri := "assets/" ++ bodyName ++ "." ++ facts.fileFormat
  let found := st0.assetsUris.contains uri
  let cb : CelestialBody := builtBody st0.nextActorId bodyName facts
  let st1 : AppState :=
    { st0 with
        nextActorId := st0.nextActorId + 6,
        loads := if found then st0.loads else st0.loads ++ [uri],
        assetsUris := if found then st0.assetsUris else st0.assetsUris ++ [uri],
        celestialBodies := setBody st0.celestialBodies bodyName cb }
  let st2 : AppState :=
    if facts.name ≠ "" then
      let stp := animationPlayPause st1 bodyName
      { stp with handlers := stp.handlers ++ [bodyName] }
    else st1
  if bodyName = "only_gear" then
    { st2 with assetsUris := [], boundAnims := st2.boundAnims ++ [cb.model.id] }
  else st2

/-! ## Theorems -/

/-! ### Helper lemmas about `createBody` -/

theorem createBody_success_eq (db : Database) (oracle : Oracle) (st : AppState)
    (b : String) (facts : DatabaseRecord)
    (hb : lookupRec db b = some facts) (ho : oracle b = none) :
    createBody db oracle st b = createBodySuccessState st b facts := by
  unfold createBody
  rw [hb]
  unfold createBodyTry failsAt
  rw [ho]
  dsimp only
  by_cases hfound :
      st.assetsUris.contains ("assets/" ++ b ++ "." ++ facts.fileFormat) = true
  · unfold createBodySuccessState builtBody
    simp only [hfound, if_true]
    rfl
  · rw [Bool.not_eq_true] at hfound
    unfold createBodySuccessState builtBody
    simp only [hfound, Bool.false_eq_true, if_false]
    rfl

theorem createBodySuccessState_celestialBodies (st : AppState) (b : String)
    (facts : DatabaseRecord) :
    (createBodySuccessState st b facts).celestialBodies
      = setBody st.celestialBodies b (builtBody st.nextActorId b facts) := by
  unfold createBodySuccessState builtBody animationPlayPause
  dsimp only
  split_ifs <;> rfl

theorem createBodySuccessState_intervals (st : AppState) (b : String)
    (facts : DatabaseRecord) :
    (createBodySuccessState st b facts).intervals
      = if facts.name = "" then st.intervals
        else st.intervals ++ [⟨st.nextTimerId, LoopKind.labelBob, b⟩] := by
  unfold createBodySuccessState animationPlayPause
  dsimp only
  split_ifs <;> simp_all

theorem createBodySuccessState_handlers (st : AppState) (b : String)
    (facts : DatabaseRecord) :
    (createBodySuccessState st b facts).handlers
      = if facts.name = "" then st.handlers else st.handlers ++ [b] := by
  unfold createBodySuccessState animationPlayPause
  dsimp only
  split_ifs <;> simp_all

theorem createBodySuccessState_log (st : AppState) (b : String)
    (facts : DatabaseRecord) :
    (createBodySuccessState st b facts).log = st.log := by
  unfold createBodySuccessState animationPlayPause
  dsimp only
  split_ifs <;> rfl

theorem createBodySuccessState_timeouts (st : AppState) (b : String)
    (facts : DatabaseRecord) :
    (createBodySuccessState st b facts).timeouts = st.timeouts := by
  unfold createBodySuccessState animationPlayPause
  dsimp only
  split_ifs <;> rfl

theorem createBodySuccessState_loads (st : AppState) (b : String)
    (facts : DatabaseRecord) :
    (createBodySuccessState st b facts).loads
      = if st.assetsUris.contains ("assets/" ++ b ++ "." ++ facts.fileFormat)
        then st.loads
        else st.loads ++ ["assets/" ++ b ++ "." ++ facts.fileFormat] := by
  unfold createBodySuccessState animationPlayPause
  dsimp only
  split_ifs <;> simp_all

theorem createBodySuccessState_assetsUris (st : AppState) (b : String)
    (facts : DatabaseRecord) :
    (createBodySuccessState st b facts).assetsUris
      = if b = "only_gear" then []
        else if st.assetsUris.contains ("assets/" ++ b ++ "." ++ facts.fileFormat)
        then st.assetsUris
        else st.assetsUris ++ ["assets/" ++ b ++ "." ++ facts.fileFormat] := by
  unfold createBodySuccessState animationPlayPause
  dsimp only
  split_ifs <;> simp_all

theorem lookupRec_map_overwrite (k : String) (v : CelestialBody) :
    ∀ m : List (String × CelestialBody),
      m.any (fun p => p.1 = k) = true →
      lookupRec (m.map (fun p => if p.1 = k then (k, v) else p)) k = some v := by
  intro m
  induction m with
  | nil => intro h; simp at h
  | cons p rest ih =>
      obtain ⟨a, c⟩ := p
      intro h
      rw [List.map_cons]
      by_cases hp : a = k
      · subst hp
        dsimp only
        rw [if_pos rfl]
        simp [lookupRec]
      · have h' : rest.any (fun p => p.1 = k) = true := by
          simp only [List.any_cons] at h
          simpa [hp] using h
        dsimp only
        rw [if_neg hp]
        simp only [lookupRec]
        rw [if_neg hp]
        exact ih h'

theorem lookupRec_append_last (k : String) (v : CelestialBody) :
    ∀ m : List (String × CelestialBody),
      m.any (fun p => p.1 = k) = false →
      lookupRec (m ++ [(k, v)]) k = some v := by
  intro m
  induction m with
  | nil => intro _; simp [lookupRec]
  | cons p rest ih =>
      obtain ⟨a, c⟩ := p
      intro h
      simp only [List.any_cons, Bool.or_eq_false_iff] at h
      have ha : ¬ a = k := by simpa using h.1
      have h2 : rest.any (fun p => p.1 = k) = false := h.2
      rw [List.cons_append]
      simp only [lookupRec]
      rw [if_neg ha]
      exact ih h2

theorem lookupRec_setBody_self (m : List (String × CelestialBody))
    (k : String) (v : CelestialBody) :
    lookupRec (setBody m k v) k = some v := by
  unfold setBody
  split_ifs with h
  · exact lookupRec_map_overwrite k v m h
  · exact lookupRec_append_last k v m (by simp only [Bool.not_eq_true] at h; exact h)

theorem bobInv_step (rest : ℚ) (s : Int × ℚ) (h : bobInv rest s) :
    bobInv rest (labelBobStep s.1 s.2) := by
  obtain ⟨i, y⟩ := s
  rcases h with ⟨h0, h4, hy⟩ | ⟨h6, h10, hy⟩
  · dsimp only at h0 h4 hy ⊢
    subst hy
    have hlt : i < 5 := by omega
    unfold labelBobStep
    rw [if_pos hlt]
    dsimp only
    by_cases h5 : i + 1 = 5
    · rw [if_pos h5]
      right
      refine ⟨by norm_num, by norm_num, ?_⟩
      have h4' : i = 4 := by omega
      subst h4'
      push_cast
      ring
    · rw [if_neg h5]
      left
      refine ⟨by omega, by omega, ?_⟩
      push_cast
      ring
  · dsimp only at h6 h10 hy ⊢
    subst hy
    have hlt : ¬ i < 5 := by omega
    unfold labelBobStep
    rw [if_neg hlt]
    dsimp only
    by_cases h5 : i - 1 = 5
    · rw [if_pos h5]
      left
      refine ⟨by norm_num, by norm_num, ?_⟩
      have h6' : i = 6 := by omega
      subst h6'
      push_cast
      ring
    · rw [if_neg h5]
      right
      refine ⟨by omega, by omega, ?_⟩
      push_cast
      ring

theorem bobInv_iter (rest : ℚ) :
    ∀ (n : Nat) (s : Int × ℚ), bobInv rest s → bobInv rest (labelBobIter n s) := by
  intro n
  induction n with
  | zero => intro s h; exact h
  | succ n ih =>
      intro s h
      simpa [labelBobIter] using ih (labelBobStep s.1 s.2) (bobInv_step rest s h)

theorem bobInv_bounds (rest : ℚ) (s : Int × ℚ) (h : bobInv rest s) :
    rest ≤ s.2 ∧ s.2 ≤ rest + 5 / 100 := by
  rcases h with ⟨h0, h4, hy⟩ | ⟨h6, h10, hy⟩
  · have c0 : (0 : ℚ) ≤ (s.1 : ℚ) := by exact_mod_cast h0
    have c4 : (s.1 : ℚ) ≤ 4 := by exact_mod_cast h4
    constructor <;> [skip; skip] <;> rw [hy] <;> linarith
  · have c6 : (6 : ℚ) ≤ (s.1 : ℚ) := by exact_mod_cast h6
    have c10 : (s.1 : ℚ) ≤ 10 := by exact_mod_cast h10
    constructor <;> [skip; skip] <;> rw [hy] <;> linarith

/-- C1: each 100ms tick of a running label-bob loop performs exactly the
described transition on the shared phase counter and the label's local
vertical offset — counter `< 5`: offset up by `0.01`, counter `+1`, and a
jump to `10` when it reaches `5`; counter `≥ 5`: offset down by `0.01`,
counter `-1`, and a reset to `0` when it reaches `5` — and consequently a
counter in `[0, 10]` stays in `[0, 10]`. -/
theorem C1_label_bob_tick_transition (inc : Int) (y : ℚ)
    (h0 : 0 ≤ inc) (h10 : inc ≤ 10) :
    (inc < 5 →
      labelBobStep inc y = (if inc + 1 = 5 then 10 else inc + 1, y + 1 / 100)) ∧
    (5 ≤ inc →
      labelBobStep inc y = (if inc - 1 = 5 then 0 else inc - 1, y - 1 / 100)) ∧
    0 ≤ (labelBobStep inc y).1 ∧ (labelBobStep inc y).1 ≤ 10 := by
  refine ⟨fun h => ?_, fun h => ?_, ?_, ?_⟩
  · simp [labelBobStep, h]
  · simp [labelBobStep, not_lt.mpr h]
  · unfold labelBobStep
    split_ifs <;> simp_all <;> omega
  · unfold labelBobStep
    split_ifs <;> simp_all <;> omega

theorem C1_label_bob_tick_transition_witness :
    (0 : Int) ≤ 3 ∧ (3 : Int) ≤ 10 ∧
      0 ≤ (labelBobStep 3 0).1 ∧ (labelBobStep 3 0).1 ≤ 10 :=
  ⟨by norm_num, by norm_num,
    (C1_label_bob_tick_transition 3 0 (by norm_num) (by norm_num)).2.2⟩

/-- C3 (amended): for a body whose bob loop is the *only* running bob
loop, started with the shared counter at `0`, the label's vertical offset
stays within `[rest, rest + 0.05]` at every tick.  (With two or more
concurrently running loops the shared counter is advanced by all of them
and the bound fails — see the counterexample.) -/
theorem C3_single_loop_amplitude (rest : ℚ) (n : Nat) :
    rest ≤ (labelBobIter n (0, rest)).2 ∧
      (labelBobIter n (0, rest)).2 ≤ rest + 5 / 100 := by
  have hinv : bobInv rest (0, rest) := by
    left
    refine ⟨le_refl 0, by norm_num, by norm_num⟩
  exact bobInv_bounds rest _ (bobInv_iter rest n (0, rest) hinv)

/-- C3 counterexample: with the two interactive bodies `A` and `B` each
running a bob loop sharing the phase counter, five 100ms ticks leave body
`B`'s label at offset `-0.01`, strictly below its rest offset `0` — the
claimed bound `[rest, rest + 0.05]` does not hold for all simultaneously
running bodies. -/
theorem C3_shared_counter_counterexample :
    labelYOf (runEvents dbTwoInteractive noFail (List.replicate 5 Ev.tick)) "B"
        = some (-(1 / 100)) ∧
    ¬ ((0 : ℚ) ≤ -(1 / 100)) := by
  constructor
  · simp +decide [runEvents, createSolarSystem, buildBodies, createBody,
      createBodyTry, applyEvent, tickAll, runIntervalCallback, labelBobStep,
      labelYOf, lookupBody, lookupRec, updateBodyEntry, setLabelY, setBody,
      animationPlayPause, initState, sampleRec, noFail, failsAt, mkActor,
      dbTwoInteractive]
  · norm_num

/-- C6: for every body whose construction succeeds, the six registered
scene nodes form the strict parent chain — inclination is the root,
position's parent is inclination, label's parent is position,
obliquity0's parent is position, obliquity1's parent is obliquity0, and
model's parent is obliquity1 — with six pairwise-distinct node ids, so no
other parent links exist among them.  (The variant copy
`app - Copy.ts` builds the identical chain.) -/
theorem C6_parent_chain (db : Database) (oracle : Oracle) (st : AppState)
    (b : String) (facts : DatabaseRecord)
    (hb : lookupRec db b = some facts) (ho : oracle b = none) :
    ∃ cb, lookupBody (createBody db oracle st b) b = some cb ∧
      cb.inclination.parentId = none ∧
      cb.position.parentId = some cb.inclination.id ∧
      cb.label.parentId = some cb.position.id ∧
      cb.obliquity0.parentId = some cb.position.id ∧
      cb.obliquity1.parentId = some cb.obliquity0.id ∧
      cb.model.parentId = some cb.obliquity1.id ∧
      List.Nodup [cb.inclination.id, cb.position.id, cb.label.id,
        cb.obliquity0.id, cb.obliquity1.id, cb.model.id] := by
  rw [createBody_success_eq db oracle st b facts hb ho]
  refine ⟨builtBody st.nextActorId b facts, ?_, rfl, rfl, rfl, rfl, rfl, rfl, ?_⟩
  · unfold lookupBody
    rw [createBodySuccessState_celestialBodies]
    exact lookupRec_setBody_self _ _ _
  · simp [builtBody, mkActor]

theorem C6_parent_chain_witness :
    ∃ cb, lookupBody (createBody dbAssetPair noFail initState "A") "A" = some cb ∧
      cb.inclination.parentId = none ∧
      cb.position.parentId = some cb.inclination.id ∧
      cb.label.parentId = some cb.position.id ∧
      cb.obliquity0.parentId = some cb.position.id ∧
      cb.obliquity1.parentId = some cb.obliquity0.id ∧
      cb.model.parentId = some cb.obliquity1.id ∧
      List.Nodup [cb.inclination.id, cb.position.id, cb.label.id,
        cb.obliquity0.id, cb.obliquity1.id, cb.model.id] :=
  C6_parent_chain dbAssetPair noFail initState "A" (sampleRec "A" 100) rfl rfl

/-- C9: for every body record the registered visual model's local scale
is the cube root of the record's diameter divided by 25, halved, applied
identically on all three axes; a record with diameter 0 yields scale
factor 0, and the body is still registered (construction does not
crash). -/
theorem C9_model_scale (db : Database) (oracle : Oracle) (st : AppState)
    (b : String) (facts : DatabaseRecord)
    (hb : lookupRec db b = some facts) (ho : oracle b = none) :
    ∃ cb, lookupBody (createBody db oracle st b) b = some cb ∧
      cb.model.localScale = some (scaleHalf facts.diameter, scaleHalf facts.diameter,
        scaleHalf facts.diameter) ∧
      scaleHalf facts.diameter = ((facts.diameter : ℝ) ^ ((1 : ℝ) / 3) / 25) / 2 ∧
      (facts.diameter = 0 → scaleHalf facts.diameter = 0) := by
  rw [createBody_success_eq db oracle st b facts hb ho]
  refine ⟨builtBody st.nextActorId b facts, ?_, rfl, rfl, ?_⟩
  · unfold lookupBody
    rw [createBodySuccessState_celestialBodies]
    exact lookupRec_setBody_self _ _ _
  · intro h0
    unfold scaleHalf scaleMultiplier
    rw [h0]
    push_cast
    rw [Real.zero_rpow (by norm_num)]
    norm_num

theorem C9_model_scale_witness :
    ∃ cb, lookupBody (createBody dbZeroDiam noFail initState "Z") "Z" = some cb ∧
      cb.model.localScale = some (scaleHalf (sampleRec "Z" 0).diameter,
        scaleHalf (sampleRec "Z" 0).diameter, scaleHalf (sampleRec "Z" 0).diameter) ∧
      scaleHalf (sampleRec "Z" 0).diameter
        = (((sampleRec "Z" 0).diameter : ℝ) ^ ((1 : ℝ) / 3) / 25) / 2 ∧
      ((sampleRec "Z" 0).diameter = 0 → scaleHalf (sampleRec "Z" 0).diameter = 0) :=
  C9_model_scale dbZeroDiam noFail initState "Z" (sampleRec "Z" 0) rfl rfl

set_option maxHeartbeats 1000000 in
/-- Evaluation of `createBody` when the oracle makes step `k` of the try
block throw (the step-5 load only runs when the asset is not already
registered, hence the side condition). -/
theorem createBody_fail_eval (db : Database) (oracle : Oracle) (st : AppState)
    (b : String) (facts : DatabaseRecord) (k : Nat) (e : String)
    (hb : lookupRec db b = some facts) (ho : oracle b = some (k, e)) (hk : k ≤ 6)
    (h5 : k = 5 →
      st.assetsUris.contains ("assets/" ++ b ++ "." ++ facts.fileFormat) = false) :
    (createBody db oracle st b).log
        = st.log ++ ["createBody failed " ++ b ++ ", " ++ e] ∧
    (createBody db oracle st b).celestialBodies = st.celestialBodies ∧
    (createBody db oracle st b).intervals = st.intervals := by
  unfold createBody
  rw [hb]
  dsimp only
  unfold createBodyTry failsAt
  rw [ho]
  dsimp only
  interval_cases k
  · simp
  · simp
  · simp
  · simp
  · simp
  · rw [h5 rfl]
    simp
  · by_cases hf :
        st.assetsUris.contains ("assets/" ++ b ++ "." ++ facts.fileFormat) = true
    · simp [hf]
    · rw [Bool.not_eq_true] at hf
      simp [hf]

/-- C5: a failure thrown at any step of one body's node or asset creation
inside `createBody`'s try block is caught there, logged as
`createBody failed <name>, <error>`, leaves the registry untouched, and
construction of any other body afterwards still registers that body: no
error escapes `createBody` (which is total in the embedding). -/
theorem C5_error_isolation (db : Database) (oracle : Oracle) (st : AppState)
    (b : String) (facts : DatabaseRecord) (k : Nat) (e : String)
    (hb : lookupRec db b = some facts) (ho : oracle b = some (k, e)) (hk : k ≤ 6)
    (h5 : k = 5 →
      st.assetsUris.contains ("assets/" ++ b ++ "." ++ facts.fileFormat) = false) :
    (createBody db oracle st b).log
        = st.log ++ ["createBody failed " ++ b ++ ", " ++ e] ∧
    (createBody db oracle st b).celestialBodies = st.celestialBodies ∧
    ∀ c rc, lookupRec db c = some rc → oracle c = none →
      isRegistered (createBody db oracle (createBody db oracle st b) c) c = true := by
  obtain ⟨hlog, hreg, _⟩ := createBody_fail_eval db oracle st b facts k e hb ho hk h5
  refine ⟨hlog, hreg, ?_⟩
  intro c rc hc hoc
  rw [createBody_success_eq db oracle _ c rc hc hoc]
  unfold isRegistered lookupBody
  rw [createBodySuccessState_celestialBodies, lookupRec_setBody_self]
  rfl

theorem C5_error_isolation_witness :
    (createBody dbFailPair failOracleA initState "A").log
        = initState.log ++ ["createBody failed " ++ "A" ++ ", " ++ "boom"] ∧
    (createBody dbFailPair failOracleA initState "A").celestialBodies
        = initState.celestialBodies ∧
    ∀ c rc, lookupRec dbFailPair c = some rc → failOracleA c = none →
      isRegistered (createBody dbFailPair failOracleA
        (createBody dbFailPair failOracleA initState "A") c) c = true :=
  C5_error_isolation dbFailPair failOracleA initState "A" (sampleRec "A" 100) 2 "boom"
    rfl rfl (by norm_num) (fun h => absurd h (by norm_num))

/-! ### Projection lemmas for `ite` states and the event operations -/

@[simp] theorem intervals_ite (c : Prop) [Decidable c] (a b : AppState) :
    (ite c a b).intervals = ite c a.intervals b.intervals := by
  split <;> rfl

@[simp] theorem celestialBodies_ite (c : Prop) [Decidable c] (a b : AppState) :
    (ite c a b).celestialBodies = ite c a.celestialBodies b.celestialBodies := by
  split <;> rfl

@[simp] theorem timeouts_ite (c : Prop) [Decidable c] (a b : AppState) :
    (ite c a b).timeouts = ite c a.timeouts b.timeouts := by
  split <;> rfl

@[simp] theorem gearLoopInc_ite (c : Prop) [Decidable c] (a b : AppState) :
    (ite c a b).gearLoopInc = ite c a.gearLoopInc b.gearLoopInc := by
  split <;> rfl

@[simp] theorem clearIntervalH_celestialBodies (st : AppState) (h : Option Nat) :
    (clearIntervalH st h).celestialBodies = st.celestialBodies := by
  unfold clearIntervalH
  cases h <;> rfl

@[simp] theorem clearIntervalH_gearLoopInc (st : AppState) (h : Option Nat) :
    (clearIntervalH st h).gearLoopInc = st.gearLoopInc := by
  unfold clearIntervalH
  cases h <;> rfl

@[simp] theorem clearIntervalH_timeouts (st : AppState) (h : Option Nat) :
    (clearIntervalH st h).timeouts = st.timeouts := by
  unfold clearIntervalH
  cases h <;> rfl

@[simp] theorem clearTimeoutH_celestialBodies (st : AppState) (h : Option Nat) :
    (clearTimeoutH st h).celestialBodies = st.celestialBodies := by
  unfold clearTimeoutH
  cases h <;> rfl

@[simp] theorem clearTimeoutH_intervals (st : AppState) (h : Option Nat) :
    (clearTimeoutH st h).intervals = st.intervals := by
  unfold clearTimeoutH
  cases h <;> rfl

@[simp] theorem clearTimeoutH_gearLoopInc (st : AppState) (h : Option Nat) :
    (clearTimeoutH st h).gearLoopInc = st.gearLoopInc := by
  unfold clearTimeoutH
  cases h <;> rfl

@[simp] theorem clearTimeoutH_anims (st : AppState) (h : Option Nat) :
    (clearTimeoutH st h).anims = st.anims := by
  unfold clearTimeoutH
  cases h <;> rfl

theorem runIntervalCallback_intervals (st : AppState) (t : IntervalTimer) :
    (runIntervalCallback st t).intervals = st.intervals := by
  unfold runIntervalCallback
  cases hk : t.kind <;>
    rcases hl : lookupBody st t.body with _ | cb <;>
    simp only [hl] <;> rfl

theorem runIntervalCallback_gearLoopInc (st : AppState) (t : IntervalTimer)
    (hk : t.kind = LoopKind.labelBob) :
    (runIntervalCallback st t).gearLoopInc = st.gearLoopInc := by
  unfold runIntervalCallback
  rw [hk]
  rcases hl : lookupBody st t.body with _ | cb <;> simp only [hl] <;> rfl

theorem tickAll_aux_pres (l : List IntervalTimer) :
    ∀ st : AppState,
      (∀ t ∈ l, t.kind = LoopKind.labelBob) →
      (l.foldl runIntervalCallback st).intervals = st.intervals ∧
      (l.foldl runIntervalCallback st).gearLoopInc = st.gearLoopInc := by
  induction l with
  | nil => intro st _; exact ⟨rfl, rfl⟩
  | cons t rest ih =>
      intro st hl
      have ht : t.kind = LoopKind.labelBob := hl t (List.mem_cons_self t rest)
      have hrest : ∀ u ∈ rest, u.kind = LoopKind.labelBob :=
        fun u hu => hl u (List.mem_cons_of_mem t hu)
      rw [List.foldl_cons]
      obtain ⟨hi, hg⟩ := ih (runIntervalCallback st t) hrest
      constructor
      · rw [hi, runIntervalCallback_intervals]
      · rw [hg, runIntervalCallback_gearLoopInc st t ht]

theorem tickAll_pres (st : AppState)
    (h : ∀ t ∈ st.intervals, t.kind = LoopKind.labelBob) :
    (tickAll st).intervals = st.intervals ∧
    (tickAll st).gearLoopInc = st.gearLoopInc :=
  tickAll_aux_pres st.intervals st h

theorem boxAnimationEnter_intervals (st : AppState) :
    ((boxAnimationEnter st).1).intervals
      = (clearIntervalH st st.animationLoopIterval).intervals := by
  unfold boxAnimationEnter
  dsimp only
  rcases h1 : lookupBody (clearIntervalH st st.animationLoopIterval)
      "box_model_cloud" with _ | box
  · rfl
  · rcases h2 : lookupBody (clearIntervalH st st.animationLoopIterval)
        "only_gear" with _ | gear
    · rfl
    · rfl

theorem boxAnimationEnter_gearLoopInc (st : AppState) :
    ((boxAnimationEnter st).1).gearLoopInc = st.gearLoopInc := by
  unfold boxAnimationEnter
  dsimp only
  rcases h1 : lookupBody (clearIntervalH st st.animationLoopIterval)
      "box_model_cloud" with _ | box
  · exact clearIntervalH_gearLoopInc st _
  · rcases h2 : lookupBody (clearIntervalH st st.animationLoopIterval)
        "only_gear" with _ | gear
    · exact clearIntervalH_gearLoopInc st _
    · exact clearIntervalH_gearLoopInc st _

theorem clearIntervalH_intervals_sub (st : AppState) (h : Option Nat)
    (t : IntervalTimer) (ht : t ∈ (clearIntervalH st h).intervals) :
    t ∈ st.intervals := by
  unfold clearIntervalH at ht
  cases h with
  | none => exact ht
  | some i => exact (List.mem_filter.mp ht).1

theorem boxAnimationExit_intervals (st : AppState) :
    ((boxAnimationExit st).1).intervals = st.intervals := by
  unfold boxAnimationExit
  rcases h1 : lookupBody st "box_model_cloud" with _ | box
  · rfl
  · rcases h2 : lookupBody st "only_gear" with _ | gear
    · rfl
    · rfl

theorem boxAnimationExit_gearLoopInc (st : AppState) :
    ((boxAnimationExit st).1).gearLoopInc = st.gearLoopInc := by
  unfold boxAnimationExit
  rcases h1 : lookupBody st "box_model_cloud" with _ | box
  · rfl
  · rcases h2 : lookupBody st "only_gear" with _ | gear
    · rfl
    · rfl

theorem childModelDisplay_intervals (st : AppState) :
    ((childModelDisplay st).1).intervals = st.intervals := by
  unfold childModelDisplay
  dsimp only
  rcases h1 : lookupBody (clearTimeoutH st st.childBoxTimeout)
      "popup_model" with _ | popup
  · exact clearTimeoutH_intervals st _
  · exact clearTimeoutH_intervals st _

theorem childModelDisplay_gearLoopInc (st : AppState) :
    ((childModelDisplay st).1).gearLoopInc = st.gearLoopInc := by
  unfold childModelDisplay
  dsimp only
  rcases h1 : lookupBody (clearTimeoutH st st.childBoxTimeout)
      "popup_model" with _ | popup
  · exact clearTimeoutH_gearLoopInc st _
  · exact clearTimeoutH_gearLoopInc st _

theorem runShrinkCallback_intervals (st : AppState) :
    (runShrinkCallback st).intervals = st.intervals := by
  unfold runShrinkCallback
  rcases h : lookupBody st "popup_model" with _ | p
  · rfl
  · rfl

theorem runShrinkCallback_gearLoopInc (st : AppState) :
    (runShrinkCallback st).gearLoopInc = st.gearLoopInc := by
  unfold runShrinkCallback
  rcases h : lookupBody st "popup_model" with _ | p
  · rfl
  · rfl

theorem fireOldestTimeout_intervals (st : AppState) :
    (fireOldestTimeout st).intervals = st.intervals := by
  unfold fireOldestTimeout
  rcases ht : st.timeouts with _ | ⟨t, rest⟩
  · rfl
  · exact runShrinkCallback_intervals _

theorem fireOldestTimeout_gearLoopInc (st : AppState) :
    (fireOldestTimeout st).gearLoopInc = st.gearLoopInc := by
  unfold fireOldestTimeout
  rcases ht : st.timeouts with _ | ⟨t, rest⟩
  · rfl
  · exact runShrinkCallback_gearLoopInc _

@[simp] theorem animationPlayPause_intervals (st : AppState) (b : String) :
    (animationPlayPause st b).intervals
      = st.intervals ++ [⟨st.nextTimerId, LoopKind.labelBob, b⟩] := rfl

@[simp] theorem animationPlayPause_gearLoopInc (st : AppState) (b : String) :
    (animationPlayPause st b).gearLoopInc = st.gearLoopInc := rfl

@[simp] theorem animationPlayPause_celestialBodies (st : AppState) (b : String) :
    (animationPlayPause st b).celestialBodies = st.celestialBodies := rfl

theorem createBodySuccessState_boundAnims (st : AppState) (b : String)
    (facts : DatabaseRecord) :
    (createBodySuccessState st b facts).boundAnims
      = if b = "only_gear" then st.boundAnims ++ [st.nextActorId + 5]
        else st.boundAnims := by
  unfold createBodySuccessState builtBody animationPlayPause
  dsimp only
  split_ifs <;> rfl

set_option maxHeartbeats 3200000 in
/-- `createBody` (with any failure oracle) only ever starts label-bob
intervals and never touches the gear phase counter. -/
theorem createBody_bobOnly (db : Database) (oracle : Oracle) (st : AppState)
    (b : String)
    (h : ∀ t ∈ st.intervals, t.kind = LoopKind.labelBob) :
    (∀ t ∈ (createBody db oracle st b).intervals, t.kind = LoopKind.labelBob) ∧
    (createBody db oracle st b).gearLoopInc = st.gearLoopInc := by
  unfold createBody
  rcases hdb : lookupRec db b with _ | facts
  · exact ⟨h, rfl⟩
  · unfold createBodyTry
    dsimp only
    rcases h0 : failsAt oracle b 0 with _ | e0
    swap
    · dsimp only
      exact ⟨h, rfl⟩
    dsimp only
    rcases h1 : failsAt oracle b 1 with _ | e1
    swap
    · dsimp only
      exact ⟨h, rfl⟩
    dsimp only
    rcases h2 : failsAt oracle b 2 with _ | e2
    swap
    · dsimp only
      exact ⟨h, rfl⟩
    dsimp only
    rcases h3 : failsAt oracle b 3 with _ | e3
    swap
    · dsimp only
      exact ⟨h, rfl⟩
    dsimp only
    rcases h4 : failsAt oracle b 4 with _ | e4
    swap
    · dsimp only
      exact ⟨h, rfl⟩
    dsimp only
    rcases h5 : (if st.assetsUris.contains ("assets/" ++ b ++ "." ++ facts.fileFormat)
        then none else failsAt oracle b 5) with _ | e5
    swap
    · dsimp only
      exact ⟨h, rfl⟩
    dsimp only
    rcases h6 : failsAt oracle b 6 with _ | e6
    swap
    · dsimp only
      exact ⟨h, rfl⟩
    dsimp only
    constructor
    · intro t ht
      simp only [intervals_ite, animationPlayPause_intervals, ite_self] at ht
      by_cases hname : facts.name = ""
      · rw [if_neg (not_not_intro hname)] at ht
        exact h t ht
      · rw [if_pos hname] at ht
        rcases List.mem_append.mp ht with h' | h'
        · exact h t h'
        · simp only [List.mem_singleton] at h'
          subst h'
          rfl
    · simp only [gearLoopInc_ite, ite_self]
      by_cases hname : facts.name = ""
      · rw [if_neg (not_not_intro hname)]
      · rw [if_pos hname]
        rfl

theorem buildBodies_bobOnly (db : Database) (oracle : Oracle)
    (names : List String) :
    ∀ st : AppState,
      (∀ t ∈ st.intervals, t.kind = LoopKind.labelBob) →
      (∀ t ∈ (buildBodies db oracle st names).intervals,
          t.kind = LoopKind.labelBob) ∧
      (buildBodies db oracle st names).gearLoopInc = st.gearLoopInc := by
  induction names with
  | nil => intro st h; exact ⟨h, rfl⟩
  | cons n rest ih =>
      intro st h
      obtain ⟨h1, hg1⟩ := createBody_bobOnly db oracle st n h
      obtain ⟨h2, hg2⟩ := ih (createBody db oracle st n) h1
      unfold buildBodies at h2 hg2 ⊢
      rw [List.foldl_cons]
      exact ⟨h2, by rw [hg2, hg1]⟩

theorem applyEvent_bobOnly (st : AppState) (e : Ev)
    (h : ∀ t ∈ st.intervals, t.kind = LoopKind.labelBob) :
    (∀ t ∈ (applyEvent st e).intervals, t.kind = LoopKind.labelBob) ∧
    (applyEvent st e).gearLoopInc = st.gearLoopInc := by
  cases e with
  | tick =>
      obtain ⟨hi, hg⟩ := tickAll_pres st h
      unfold applyEvent
      exact ⟨fun t ht => h t (hi ▸ ht), hg⟩
  | hoverEnter b =>
      unfold applyEvent
      dsimp only
      split_ifs with hb
      · constructor
        · intro t ht
          rw [boxAnimationEnter_intervals] at ht
          exact h t (clearIntervalH_intervals_sub st _ t ht)
        · exact boxAnimationEnter_gearLoopInc st
      · exact ⟨h, rfl⟩
  | hoverExit b =>
      unfold applyEvent
      dsimp only
      split_ifs with hb
      · constructor
        · intro t ht
          rw [boxAnimationExit_intervals, animationPlayPause_intervals] at ht
          rcases List.mem_append.mp ht with h' | h'
          · exact h t h'
          · simp only [List.mem_singleton] at h'
            subst h'
            rfl
        · rw [boxAnimationExit_gearLoopInc, animationPlayPause_gearLoopInc]
      · exact ⟨h, rfl⟩
  | click b =>
      unfold applyEvent
      dsimp only
      split_ifs with hb
      · exact ⟨fun t ht => h t (by rwa [childModelDisplay_intervals] at ht),
          childModelDisplay_gearLoopInc st⟩
      · exact ⟨h, rfl⟩
  | fireTimeout =>
      unfold applyEvent
      exact ⟨fun t ht => h t (by rwa [fireOldestTimeout_intervals] at ht),
        fireOldestTimeout_gearLoopInc st⟩

theorem foldEvents_bobOnly (evs : List Ev) :
    ∀ st : AppState,
      (∀ t ∈ st.intervals, t.kind = LoopKind.labelBob) →
      (∀ t ∈ (evs.foldl applyEvent st).intervals, t.kind = LoopKind.labelBob) ∧
      (evs.foldl applyEvent st).gearLoopInc = st.gearLoopInc := by
  induction evs with
  | nil => intro st h; exact ⟨h, rfl⟩
  | cons e rest ih =>
      intro st h
      obtain ⟨h1, hg1⟩ := applyEvent_bobOnly st e h
      obtain ⟨h2, hg2⟩ := ih (applyEvent st e) h1
      rw [List.foldl_cons]
      exact ⟨h2, by rw [hg2, hg1]⟩

theorem runEvents_bobOnly (db : Database) (oracle : Oracle) (evs : List Ev) :
    (∀ t ∈ (runEvents db oracle evs).intervals, t.kind = LoopKind.labelBob) ∧
    (runEvents db oracle evs).gearLoopInc = 0 := by
  have hinit : ∀ t ∈ initState.intervals, t.kind = LoopKind.labelBob := by
    intro t ht
    simp [initState] at ht
  obtain ⟨hc, hgc⟩ :=
    buildBodies_bobOnly db oracle (db.map Prod.fst) initState hinit
  obtain ⟨hr, hgr⟩ := foldEvents_bobOnly evs (createSolarSystem db oracle) hc
  unfold runEvents
  refine ⟨hr, ?_⟩
  rw [hgr]
  unfold createSolarSystem
  rw [hgc]
  rfl

/-- In no run — over any database, any failure oracle and any event
sequence — is a gear oscillation interval running, and the gear phase
counter never leaves `0`: `gearAnimation` has no call site. -/
theorem no_gear_loop_in_any_run (db : Database) (oracle : Oracle)
    (evs : List Ev) :
    (runEvents db oracle evs).intervals.filter
        (fun t => t.kind = LoopKind.gearOsc) = [] ∧
    (runEvents db oracle evs).gearLoopInc = 0 := by
  obtain ⟨hbob, hg⟩ := runEvents_bobOnly db oracle evs
  refine ⟨?_, hg⟩
  rw [List.filter_eq_nil]
  intro t ht
  rw [hbob t ht]
  simp

/-- C8 counterexample: a full run over a database containing the special
gear body (construction of all four bodies, a tick, a hover cycle, a
click and another tick) ends with no gear-oscillation interval running
and the gear phase counter still `0` — no gear oscillation loop was
started for any body. -/
theorem C8_no_gear_loop_counterexample :
    (runEvents dbWithPopup noFail
      [Ev.tick, Ev.hoverEnter "A", Ev.hoverExit "A", Ev.click "A",
       Ev.tick]).intervals.filter
        (fun t => t.kind = LoopKind.gearOsc) = [] ∧
    (runEvents dbWithPopup noFail
      [Ev.tick, Ev.hoverEnter "A", Ev.hoverExit "A", Ev.click "A",
       Ev.tick]).gearLoopInc = 0 := by
  exact ⟨rfl, rfl⟩

/-- C8 (amended): the code defines a gear-oscillation routine —
`gearAnimation` starts a 100ms interval whose callback `gearStep` keeps a
phase counter bounded in `[0, 20]`, stepping the model rotation by `0.01`
per tick and reversing at the boundaries (with the same asymmetric jumps
as the label bob) — but no code path ever invokes it; the designated gear
body `only_gear` instead gets a looping keyframe rotation animation bound
at construction. -/
theorem C8_gear_routine_dynamics (inc : Int) (x : ℚ)
    (h0 : 0 ≤ inc) (h20 : inc ≤ 20) :
    (inc < 10 →
      gearStep inc x = (if inc + 1 = 10 then 20 else inc + 1, x + 1 / 100)) ∧
    (10 ≤ inc →
      gearStep inc x = (if inc - 1 = 10 then 0 else inc - 1, x - 1 / 100)) ∧
    0 ≤ (gearStep inc x).1 ∧ (gearStep inc x).1 ≤ 20 ∧
    (∀ (st : AppState) (b : String),
      (gearAnimation st b).intervals
        = st.intervals ++ [⟨st.nextTimerId, LoopKind.gearOsc, b⟩]) ∧
    (∀ (db : Database) (st : AppState) (facts : DatabaseRecord),
      lookupRec db "only_gear" = some facts →
      (createBody db noFail st "only_gear").boundAnims
        = st.boundAnims ++ [st.nextActorId + 5]) ∧
    (∀ (db : Database) (oracle : Oracle) (evs : List Ev),
      (runEvents db oracle evs).intervals.filter
          (fun t => t.kind = LoopKind.gearOsc) = [] ∧
      (runEvents db oracle evs).gearLoopInc = 0) := by
  refine ⟨fun h => ?_, fun h => ?_, ?_, ?_, fun st b => rfl, ?_,
    fun db oracle evs => no_gear_loop_in_any_run db oracle evs⟩
  · simp [gearStep, h]
  · simp [gearStep, not_lt.mpr h]
  · unfold gearStep
    split_ifs <;> simp_all <;> omega
  · unfold gearStep
    split_ifs <;> simp_all <;> omega
  · intro db st facts hdb
    rw [createBody_success_eq db noFail st "only_gear" facts hdb rfl,
      createBodySuccessState_boundAnims]
    rfl

theorem C8_gear_routine_dynamics_witness :
    0 ≤ (gearStep 3 0).1 ∧ (gearStep 3 0).1 ≤ 20 :=
  ⟨(C8_gear_routine_dynamics 3 0 (by norm_num) (by norm_num)).2.2.1,
   (C8_gear_routine_dynamics 3 0 (by norm_num) (by norm_num)).2.2.2.1⟩

/-! ### Bob-timer counting -/

theorem bobCount_createBody_other (db : Database) (st : AppState)
    (b b' : String) (hne : b' ≠ b) :
    bobCount (createBody db noFail st b') b = bobCount st b := by
  rcases hdb : lookupRec db b' with _ | facts
  · unfold createBody
    rw [hdb]
    rfl
  · rw [createBody_success_eq db noFail st b' facts hdb rfl]
    unfold bobCount bobTimersFor
    rw [createBodySuccessState_intervals]
    split_ifs with hname
    · rfl
    · rw [List.filter_append]
      simp [hne]

theorem bobCount_createBody_self (db : Database) (st : AppState)
    (b : String) (facts : DatabaseRecord)
    (hdb : lookupRec db b = some facts) :
    bobCount (createBody db noFail st b) b
      = bobCount st b + (if facts.name = "" then 0 else 1) := by
  rw [createBody_success_eq db noFail st b facts hdb rfl]
  unfold bobCount bobTimersFor
  rw [createBodySuccessState_intervals]
  split_ifs with hname
  · rfl
  · rw [List.filter_append]
    simp

theorem bobCount_buildBodies_not_mem (db : Database) (names : List String) :
    ∀ (st : AppState) (b : String), b ∉ names →
      bobCount (buildBodies db noFail st names) b = bobCount st b := by
  induction names with
  | nil => intro st b _; rfl
  | cons n rest ih =>
      intro st b hb
      simp only [List.mem_cons, not_or] at hb
      unfold buildBodies
      rw [List.foldl_cons]
      have h1 := ih (createBody db noFail st n) b hb.2
      unfold buildBodies at h1
      rw [h1, bobCount_createBody_other db st b n (fun h => hb.1 h.symm)]

theorem lookupRec_of_mem_nodup {α : Type} :
    ∀ (db : List (String × α)), (db.map Prod.fst).Nodup →
      ∀ (b : String) (v : α), (b, v) ∈ db → lookupRec db b = some v := by
  intro db
  induction db with
  | nil => intro _ b v hmem; simp at hmem
  | cons p rest ih =>
      obtain ⟨a, c⟩ := p
      intro hnd b v hmem
      simp only [List.map_cons, List.nodup_cons] at hnd
      rcases List.mem_cons.mp hmem with heq | hmem'
      · cases heq
        simp [lookupRec]
      · have hane : ¬ a = b := by
          intro heq2
          apply hnd.1
          rw [heq2]
          simpa using List.mem_map_of_mem Prod.fst hmem'
        simp only [lookupRec, hane, if_false]
        exact ih hnd.2 b v hmem'

theorem bobCount_construction (db : Database)
    (hnd : (db.map Prod.fst).Nodup) (b : String) (facts : DatabaseRecord)
    (hmem : (b, facts) ∈ db) :
    bobCount (createSolarSystem db noFail) b
      = if facts.name = "" then 0 else 1 := by
  have hlook : lookupRec db b = some facts := lookupRec_of_mem_nodup db hnd b facts hmem
  have hbmem : b ∈ db.map Prod.fst := List.mem_map_of_mem Prod.fst hmem
  obtain ⟨s, t, hsplit⟩ := List.append_of_mem hbmem
  have hnd' := hsplit ▸ hnd
  have hbs : b ∉ s := by
    intro hin
    rw [List.nodup_append] at hnd'
    exact hnd'.2.2 hin (List.mem_cons_self b t)
  have hbt : b ∉ t := by
    rw [List.nodup_append, List.nodup_cons] at hnd'
    exact hnd'.2.1.1
  unfold createSolarSystem
  rw [hsplit]
  unfold buildBodies
  rw [List.foldl_append, List.foldl_cons]
  have h1 : bobCount (List.foldl (createBody db noFail) initState s) b = 0 := by
    have := bobCount_buildBodies_not_mem db s initState b hbs
    unfold buildBodies at this
    rw [this]
    rfl
  have h3 := bobCount_buildBodies_not_mem db t
    (createBody db noFail (List.foldl (createBody db noFail) initState s) b) b hbt
  unfold buildBodies at h3
  rw [h3, bobCount_createBody_self db _ b facts hlook, h1]
  simp

theorem clearIntervalH_mem_iff (st : AppState) (h : Option Nat)
    (t : IntervalTimer) :
    t ∈ (clearIntervalH st h).intervals ↔
      t ∈ st.intervals ∧ some t.id ≠ h := by
  unfold clearIntervalH
  cases h with
  | none => simp
  | some i => simp [List.mem_filter]

/-- C2 (amended): after fault-free construction, each body with a
non-empty display name has exactly one running bob timer and each body
with an empty display name has none; but the hover-enter handler stops
only the interval whose handle is currently stored in the shared field —
the most recently started loop, whichever body it belongs to — and the
hover-exit handler starts a fresh loop for the hovered body.  Hence with
two or more interactive bodies an enter/exit cycle leaves the hovered
body with two running bob timers and another body with none (see the
counterexample). -/
theorem C2_bob_timer_bookkeeping :
    (∀ db : Database, (db.map Prod.fst).Nodup →
      ∀ (b : String) (facts : DatabaseRecord), (b, facts) ∈ db →
        bobCount (createSolarSystem db noFail) b
          = if facts.name = "" then 0 else 1) ∧
    (∀ (st : AppState) (b : String), b ∈ st.handlers →
      (∀ t ∈ st.intervals,
        (t ∈ (applyEvent st (Ev.hoverEnter b)).intervals ↔
          some t.id ≠ st.animationLoopIterval)) ∧
      (applyEvent st (Ev.hoverExit b)).intervals
        = st.intervals ++ [⟨st.nextTimerId, LoopKind.labelBob, b⟩]) := by
  constructor
  · exact fun db hnd b facts hmem => bobCount_construction db hnd b facts hmem
  · intro st b hb
    constructor
    · intro t ht
      unfold applyEvent
      dsimp only
      rw [if_pos hb, boxAnimationEnter_intervals, clearIntervalH_mem_iff]
      exact ⟨fun h => h.2, fun h => ⟨ht, h⟩⟩
    · unfold applyEvent
      dsimp only
      rw [if_pos hb, boxAnimationExit_intervals, animationPlayPause_intervals]

theorem C2_bob_timer_bookkeeping_witness :
    (bobCount (createSolarSystem dbTwoInteractive noFail) "A"
      = if (sampleRec "A" 100).name = "" then 0 else 1) ∧
    ((applyEvent (createSolarSystem dbTwoInteractive noFail)
        (Ev.hoverExit "A")).intervals
      = (createSolarSystem dbTwoInteractive noFail).intervals
        ++ [⟨(createSolarSystem dbTwoInteractive noFail).nextTimerId,
            LoopKind.labelBob, "A"⟩]) :=
  ⟨C2_bob_timer_bookkeeping.1 dbTwoInteractive (by decide) "A"
      (sampleRec "A" 100) (by decide),
   (C2_bob_timer_bookkeeping.2 (createSolarSystem dbTwoInteractive noFail) "A"
      (by decide)).2⟩

/-- C2 counterexample: with the two interactive bodies `A` and `B`
(construction leaves the stored handle pointing at `B`'s timer), one
hover-enter / hover-exit cycle on `A` stops `B`'s bob timer and leaves
`A` with two running bob timers — the hovered body's timer is not the
one stopped, and duplicates accumulate. -/
theorem C2_duplicate_timer_counterexample :
    bobCount (runEvents dbTwoInteractive noFail
      [Ev.hoverEnter "A", Ev.hoverExit "A"]) "A" = 2 ∧
    bobCount (runEvents dbTwoInteractive noFail
      [Ev.hoverEnter "A", Ev.hoverExit "A"]) "B" = 0 :=
  ⟨rfl, rfl⟩

/-! ### Asset find-or-load -/

theorem assetsUris_mono_createBody (db : Database) (st : AppState)
    (n : String) (hn : n ≠ "only_gear") (u : String)
    (hu : u ∈ st.assetsUris) :
    u ∈ (createBody db noFail st n).assetsUris := by
  rcases hdb : lookupRec db n with _ | facts
  · unfold createBody
    rw [hdb]
    exact hu
  · rw [createBody_success_eq db noFail st n facts hdb rfl,
      createBodySuccessState_assetsUris, if_neg hn]
    split_ifs with hfound
    · exact hu
    · exact List.mem_append_left _ hu

theorem assetsUris_mono_buildBodies (db : Database) (names : List String)
    (hnames : ∀ n ∈ names, n ≠ "only_gear") :
    ∀ (st : AppState) (u : String), u ∈ st.assetsUris →
      u ∈ (buildBodies db noFail st names).assetsUris := by
  induction names with
  | nil => intro st u hu; exact hu
  | cons n rest ih =>
      intro st u hu
      unfold buildBodies
      rw [List.foldl_cons]
      have hrest : ∀ m ∈ rest, m ≠ "only_gear" :=
        fun m hm => hnames m (List.mem_cons_of_mem n hm)
      have h1 := assetsUris_mono_createBody db st n
        (hnames n (List.mem_cons_self n rest)) u hu
      have h2 := ih hrest (createBody db noFail st n) u h1
      unfold buildBodies at h2
      exact h2

theorem uri_registered_after_createBody (db : Database) (st : AppState)
    (b : String) (facts : DatabaseRecord)
    (hdb : lookupRec db b = some facts) (hb : b ≠ "only_gear") :
    ("assets/" ++ b ++ "." ++ facts.fileFormat)
      ∈ (createBody db noFail st b).assetsUris := by
  rw [createBody_success_eq db noFail st b facts hdb rfl,
    createBodySuccessState_assetsUris, if_neg hb]
  split_ifs with hfound
  · simpa using hfound
  · exact List.mem_append_right _ (List.mem_singleton_self _)

theorem createBody_no_load_when_registered (db : Database) (st : AppState)
    (b : String) (facts : DatabaseRecord)
    (hdb : lookupRec db b = some facts)
    (hreg : ("assets/" ++ b ++ "." ++ facts.fileFormat) ∈ st.assetsUris) :
    (createBody db noFail st b).loads = st.loads := by
  rw [createBody_success_eq db noFail st b facts hdb rfl,
    createBodySuccessState_loads, if_pos (by simpa using hreg)]

/-- C4 (amended): once a body's asset path has been loaded and registered
in the container, a later `createBody` request for that body issues no
second load — provided neither that body nor any body built in between
is the special body `only_gear`: building `only_gear` replaces the asset
container with a fresh, empty one, after which previously registered
paths are loaded again (see the counterexample). -/
theorem C4_asset_reuse (db : Database) (st : AppState) (b : String)
    (facts : DatabaseRecord) (names : List String)
    (hdb : lookupRec db b = some facts)
    (hb : b ≠ "only_gear")
    (hnames : ∀ n ∈ names, n ≠ "only_gear") :
    (createBody db noFail
        (buildBodies db noFail (createBody db noFail st b) names) b).loads
      = (buildBodies db noFail (createBody db noFail st b) names).loads :=
  createBody_no_load_when_registered db _ b facts hdb
    (assetsUris_mono_buildBodies db names hnames _ _
      (uri_registered_after_createBody db st b facts hdb hb))

theorem C4_asset_reuse_witness :
    (createBody dbAssetPair noFail
        (buildBodies dbAssetPair noFail
          (createBody dbAssetPair noFail initState "A") []) "A").loads
      = (buildBodies dbAssetPair noFail
          (createBody dbAssetPair noFail initState "A") []).loads :=
  C4_asset_reuse dbAssetPair initState "A" (sampleRec "A" 100) [] rfl
    (by decide) (fun n hn => absurd hn (List.not_mem_nil n))

/-- C4 counterexample: building `A`, then `only_gear` (which replaces the
asset container), then requesting `A`'s path again issues a second load
for `assets/A.glb` — the claim's "regardless of which bodies are built in
between" fails. -/
theorem C4_container_reset_counterexample :
    (createBody dbAssetPair noFail
      (createBody dbAssetPair noFail
        (createBody dbAssetPair noFail initState "A") "only_gear") "A").loads
    = ["assets/A.glb", "assets/only_gear.glb", "assets/A.glb"] := rfl

/-! ### Click handler and the shrink timeout -/

theorem lookupBody_clearTimeoutH (st : AppState) (h : Option Nat) (k : String) :
    lookupBody (clearTimeoutH st h) k = lookupBody st k := by
  unfold lookupBody
  rw [clearTimeoutH_celestialBodies]

theorem lookupBody_clearIntervalH (st : AppState) (h : Option Nat) (k : String) :
    lookupBody (clearIntervalH st h) k = lookupBody st k := by
  unfold lookupBody
  rw [clearIntervalH_celestialBodies]

theorem clearTimeoutH_mem_iff (st : AppState) (h : Option Nat)
    (t : TimeoutTimer) :
    t ∈ (clearTimeoutH st h).timeouts ↔ t ∈ st.timeouts ∧ some t.id ≠ h := by
  unfold clearTimeoutH
  cases h with
  | none => simp
  | some i => simp [List.mem_filter]

theorem lookupRec_update_self {α : Type} (k : String) (v : α) :
    ∀ m : List (String × α), (lookupRec m k).isSome →
      lookupRec (m.map (fun p => if p.1 = k then (p.1, v) else p)) k = some v := by
  intro m
  induction m with
  | nil => intro h; simp [lookupRec] at h
  | cons p rest ih =>
      obtain ⟨a, c⟩ := p
      intro h
      rw [List.map_cons]
      by_cases hp : a = k
      · subst hp
        dsimp only
        rw [if_pos rfl]
        simp [lookupRec]
      · dsimp only
        rw [if_neg hp]
        simp only [lookupRec, hp, if_false] at h ⊢
        exact ih h

/-- C7 (amended): clicking an interactive body cancels exactly the
pending popup-shrink timer whose handle is currently stored — the one
scheduled by the most recent box-close — makes the popup model visible,
and starts an animation of its scale toward the fixed target size (the
value computed from diameter 1000) over 1 time unit.  A shrink timer
scheduled by an earlier box-close whose handle was overwritten is NOT
cancelled and can still fire (see the counterexample). -/
theorem C7_click_cancels_stored_shrink (st : AppState) (b : String)
    (popup : CelestialBody)
    (hb : b ∈ st.handlers)
    (hp : lookupBody st "popup_model" = some popup) :
    (∀ t ∈ st.timeouts, some t.id ≠ st.childBoxTimeout →
        t ∈ (applyEvent st (Ev.click b)).timeouts) ∧
    (∀ t ∈ (applyEvent st (Ev.click b)).timeouts,
        t ∈ st.timeouts ∧ some t.id ≠ st.childBoxTimeout) ∧
    (∃ popup1, lookupBody (applyEvent st (Ev.click b)) "popup_model"
        = some popup1 ∧ popup1.model.appearanceEnabled = true) ∧
    (applyEvent st (Ev.click b)).anims
      = st.anims ++ [⟨popup.model.id,
          AnimDest.scaleUniform (scaleHalf 1000), 1, Easing.easeOutSine⟩] := by
  unfold applyEvent
  dsimp only
  rw [if_pos hb]
  unfold childModelDisplay
  dsimp only
  rw [lookupBody_clearTimeoutH, hp]
  dsimp only
  refine ⟨?_, ?_, ?_, ?_⟩
  · intro t ht hne
    show t ∈ (clearTimeoutH st st.childBoxTimeout).timeouts
    exact (clearTimeoutH_mem_iff st _ t).mpr ⟨ht, hne⟩
  · intro t ht
    exact (clearTimeoutH_mem_iff st _ t).mp ht
  · refine ⟨{ popup with model :=
        { popup.model with appearanceEnabled := true } }, ?_, rfl⟩
    show lookupRec
      ((clearTimeoutH st st.childBoxTimeout).celestialBodies.map
        (fun p => if p.1 = "popup_model" then (p.1, _) else p)) "popup_model"
      = _
    rw [clearTimeoutH_celestialBodies]
    apply lookupRec_update_self
    unfold lookupBody at hp
    rw [hp]
    rfl
  · show (clearTimeoutH st st.childBoxTimeout).anims
        ++ [⟨popup.model.id, AnimDest.scaleUniform (scaleHalf 1000), 1,
            Easing.easeOutSine⟩]
      = _
    rw [clearTimeoutH_anims]

theorem C7_click_cancels_stored_shrink_witness :
    (∀ t ∈ c7State.timeouts, some t.id ≠ c7State.childBoxTimeout →
        t ∈ (applyEvent c7State (Ev.click "A")).timeouts) ∧
    (∀ t ∈ (applyEvent c7State (Ev.click "A")).timeouts,
        t ∈ c7State.timeouts ∧ some t.id ≠ c7State.childBoxTimeout) ∧
    (∃ popup1, lookupBody (applyEvent c7State (Ev.click "A")) "popup_model"
        = some popup1 ∧ popup1.model.appearanceEnabled = true) ∧
    (applyEvent c7State (Ev.click "A")).anims
      = c7State.anims ++ [⟨(sampleCB 0).model.id,
          AnimDest.scaleUniform (scaleHalf 1000), 1, Easing.easeOutSine⟩] :=
  C7_click_cancels_stored_shrink c7State "A" (sampleCB 0) (by decide) rfl

/-- C7 counterexample: two box-closes within the 3s delay schedule two
shrink timeouts (ids 2 and 4) but only the second handle is stored; the
click cancels only that one, and the shrink scheduled by the earlier
box-close is still pending after the click — it can still fire. -/
theorem C7_stale_shrink_counterexample :
    (runEvents dbWithPopup noFail
      [Ev.hoverEnter "A", Ev.hoverExit "A", Ev.hoverEnter "A",
       Ev.hoverExit "A", Ev.click "A"]).timeouts = [⟨2, 3000⟩] := rfl

/-! ### Hover/click handler registry access -/

/-- C10 (amended): the hover-enter handler dereferences exactly the fixed
registry entries `box_model_cloud` and `only_gear` — it completes without
throwing whenever both are present (even with `popup_model` absent), and
throws when either is absent; the click handler dereferences exactly
`popup_model`, throwing iff it is absent.  The hover-exit handler is NOT
confined to the fixed entries: before running the box-close animation it
restarts the bob loop for the hovered body itself, registering an
interval that mutates that body's own label node. -/
theorem C10_handler_fixed_targets (st : AppState) (b : String)
    (hb : b ∈ st.handlers) :
    ((lookupBody st "box_model_cloud").isSome →
      (lookupBody st "only_gear").isSome →
      (boxAnimationEnter st).2 = false) ∧
    ((lookupBody st "box_model_cloud" = none ∨
        lookupBody st "only_gear" = none) →
      (boxAnimationEnter st).2 = true) ∧
    ((applyEvent st (Ev.hoverExit b)).intervals
      = st.intervals ++ [⟨st.nextTimerId, LoopKind.labelBob, b⟩]) ∧
    (lookupBody st "popup_model" = none → (childModelDisplay st).2 = true) ∧
    ((lookupBody st "popup_model").isSome → (childModelDisplay st).2 = false) := by
  refine ⟨?_, ?_, ?_, ?_, ?_⟩
  · intro hbox hgear
    unfold boxAnimationEnter
    dsimp only
    rw [lookupBody_clearIntervalH]
    rcases h1 : lookupBody st "box_model_cloud" with _ | box
    · rw [h1] at hbox
      simp at hbox
    · dsimp only
      rw [lookupBody_clearIntervalH]
      rcases h2 : lookupBody st "only_gear" with _ | gear
      · rw [h2] at hgear
        simp at hgear
      · rfl
  · intro habs
    unfold boxAnimationEnter
    dsimp only
    rw [lookupBody_clearIntervalH]
    rcases h1 : lookupBody st "box_model_cloud" with _ | box
    · rfl
    · dsimp only
      rw [lookupBody_clearIntervalH]
      rcases h2 : lookupBody st "only_gear" with _ | gear
      · rfl
      · rw [h1, h2] at habs
        rcases habs with h | h <;> simp at h
  · unfold applyEvent
    dsimp only
    rw [if_pos hb, boxAnimationExit_intervals, animationPlayPause_intervals]
  · intro hpop
    unfold childModelDisplay
    dsimp only
    rw [lookupBody_clearTimeoutH, hpop]
  · intro hpop
    unfold childModelDisplay
    dsimp only
    rw [lookupBody_clearTimeoutH]
    rcases h1 : lookupBody st "popup_model" with _ | popup
    · rw [h1] at hpop
      simp at hpop
    · rfl

theorem C10_handler_fixed_targets_witness :
    ((lookupBody c10State "box_model_cloud").isSome →
      (lookupBody c10State "only_gear").isSome →
      (boxAnimationEnter c10State).2 = false) ∧
    ((lookupBody c10State "box_model_cloud" = none ∨
        lookupBody c10State "only_gear" = none) →
      (boxAnimationEnter c10State).2 = true) ∧
    ((applyEvent c10State (Ev.hoverExit "A")).intervals
      = c10State.intervals ++ [⟨c10State.nextTimerId, LoopKind.labelBob, "A"⟩]) ∧
    (lookupBody c10State "popup_model" = none →
      (childModelDisplay c10State).2 = true) ∧
    ((lookupBody c10State "popup_model").isSome →
      (childModelDisplay c10State).2 = false) :=
  C10_handler_fixed_targets c10State "A" (by decide)

/-- C10 counterexample: with `popup_model` absent from the registry (and
the other two fixed entries present), hover-enter on `A` completes
without any throw — the claim's "if any of these three names is absent
the handler throws" is false — and the hover-exit handler registers a
fresh bob interval for the hovered body `A` itself, operating on `A`'s
own label rather than only on the fixed entries. -/
theorem C10_handler_counterexample :
    (runEvents dbNoPopup noFail [Ev.hoverEnter "A"]).threwCount = 0 ∧
    (runEvents dbNoPopup noFail
      [Ev.hoverEnter "A", Ev.hoverExit "A"]).intervals
      = [⟨1, LoopKind.labelBob, "A"⟩] :=
  ⟨rfl, rfl⟩

end SolarSystem
